import Mathlib

/-!
Verification development for the DocuMate AI backend core: the chunker
(`backend/services/document_processor.py`), the vector retriever
(`backend/services/supabase_service.py`), the direct-RAG answer path and the
entity-offset computation (`backend/main.py`), and the tool-using agent loop
(`backend/services/gemini_agent_service.py`).

Each definition is a shallow embedding of the corresponding Python function,
translated line by line from the source; external collaborators (tokenizer,
embedding model, database client, LLM) are passed in as explicit parameters or
oracles, exactly at the boundaries where the Python code calls them.
-/

namespace DocuMate

/-! ## Chunker — `DocumentProcessor.chunk_text` (document_processor.py, lines 23-60)

Both branches of `chunk_text` run the same accumulation loop, differing only in
the flush threshold and in how many trailing elements are kept as overlap:

* tokenizer branch (lines 46-60): flush when `len(current_chunk_tokens) >=
  max_tokens` and keep `current_chunk_tokens[-overlap_tokens:]`;
* word fallback branch (lines 31-44): flush when `len(current_chunk_words) >
  max_tokens` (that is, when `max_tokens + 1 <= len`) and keep
  `current_chunk_words[-int(overlap_tokens/5):]`.

`pyTail l k` is Python's `l[-k:]`: for `k = 0` the slice `l[-0:]` is `l[0:]`,
the whole list — this Python corner case is preserved, not repaired. -/

/-- Python's `l[-k:]` for a natural `k`: the last `k` elements when `k > 0`,
and the whole list when `k = 0` (since `l[-0:] = l[0:] = l`). -/
def pyTail (l : List α) (k : Nat) : List α :=
  if k = 0 then l else l.drop (l.length - k)

/-- The shared accumulation loop of `chunk_text` over an already-split element
list (tokens in the tokenizer branch, words in the fallback branch).
`flushAt` is the least buffer length that triggers a flush, `keep` is the
number of trailing elements kept as the next chunk's seed (via `pyTail`,
i.e. Python's `[-keep:]`), `cur` is `current_chunk_tokens` /
`current_chunk_words`.  After the loop a non-empty buffer is emitted as a
final chunk (lines 42-43 and 57-58). -/
def chunkAux (flushAt keep : Nat) : List α → List α → List (List α)
  | [], cur => if cur.isEmpty then [] else [cur]
  | t :: ts, cur =>
    let cur' := cur ++ [t]
    if flushAt ≤ cur'.length then
      cur' :: chunkAux flushAt keep ts (pyTail cur' keep)
    else
      chunkAux flushAt keep ts cur'

/-- Python `str.split()` with no separator: split on runs of whitespace,
discarding empty pieces.  Implemented over the character list. -/
def pySplitAux : List Char → List Char → List String
  | [], cur => if cur.isEmpty then [] else [String.mk cur.reverse]
  | c :: cs, cur =>
    if c.isWhitespace then
      if cur.isEmpty then pySplitAux cs []
      else String.mk cur.reverse :: pySplitAux cs []
    else
      pySplitAux cs (c :: cur)

/-- Python `text.split()` (document_processor.py, line 34). -/
def pySplit (s : String) : List String :=
  pySplitAux s.data []

/-- `chunk_text` when `self.tokenizer` is available (lines 28-29 and 46-60).
`encode` and `decode` stand for `self.tokenizer.encode` / `decode`; tokens are
abstracted as naturals. -/
def chunk_text_tokenized (encode : String → List Nat) (decode : List Nat → String)
    (text : String) (max_tokens overlap_tokens : Nat) : List String :=
  if text = "" then []
  else (chunkAux max_tokens overlap_tokens (encode text) []).map decode

/-- `chunk_text` when `self.tokenizer` is `None` (lines 28-44): word-based
fallback.  The flush threshold is `len > max_tokens`, i.e. `max_tokens + 1 ≤
len`, and the overlap kept is `int(overlap_tokens / 5)` words. -/
def chunk_text_fallback (text : String) (max_tokens overlap_tokens : Nat) : List String :=
  if text = "" then []
  else (chunkAux (max_tokens + 1) (overlap_tokens / 5) (pySplit text) []).map
    (String.intercalate " ")

/-! ### Chunker lemmas -/

/-- `pyTail` with a positive `keep` bounded by the list length returns exactly
`keep` elements. -/
theorem pyTail_length (l : List α) (k : Nat) (hk : k ≠ 0) (hlen : k ≤ l.length) :
    (pyTail l k).length = k := by
  simp [pyTail, hk]
  omega

/-- Every chunk the accumulation loop emits has length at most `flushAt`,
provided the seed buffer is shorter than `flushAt` and the overlap kept after
a flush is positive and smaller than `flushAt`. -/
theorem chunkAux_length_le (flushAt keep : Nat) (hk : 0 < keep) (hkf : keep < flushAt) :
    ∀ (ts cur : List α), cur.length < flushAt →
      ∀ c ∈ chunkAux flushAt keep ts cur, c.length ≤ flushAt := by
  intro ts
  induction ts with
  | nil =>
    intro cur hcur c hc
    simp only [chunkAux] at hc
    split at hc
    · simp at hc
    · simp only [List.mem_singleton] at hc
      subst hc
      omega
  | cons t ts ih =>
    intro cur hcur c hc
    simp only [chunkAux] at hc
    split at hc
    · rename_i hflush
      have hlen : (cur ++ [t]).length = flushAt := by
        simp only [List.length_append, List.length_singleton] at hflush ⊢
        omega
      rcases List.mem_cons.mp hc with rfl | hc'
      · omega
      · refine ih (pyTail (cur ++ [t]) keep) ?_ c hc'
        rw [pyTail_length _ keep (by omega) (by omega)]
        exact hkf
    · rename_i hflush
      refine ih (cur ++ [t]) ?_ c hc
      simp only [List.length_append, List.length_singleton] at hflush ⊢
      omega

/-- The first chunk the loop returns (if any) extends the seed buffer. -/
theorem chunkAux_head_extends (flushAt keep : Nat) :
    ∀ (ts cur : List α), ∀ b ∈ (chunkAux flushAt keep ts cur).head?, cur <+: b := by
  intro ts
  induction ts with
  | nil =>
    intro cur b hb
    simp only [chunkAux] at hb
    split at hb
    · simp at hb
    · simp only [List.head?_cons, Option.mem_def, Option.some.injEq] at hb
      subst hb
      exact List.prefix_refl cur
  | cons t ts ih =>
    intro cur b hb
    simp only [chunkAux] at hb
    split at hb
    · simp only [List.head?_cons, Option.mem_def, Option.some.injEq] at hb
      subst hb
      exact ⟨[t], rfl⟩
    · exact List.IsPrefix.trans ⟨[t], rfl⟩ (ih (cur ++ [t]) b hb)

/-- A prefix of known length determines the `take`. -/
theorem take_of_isPrefix {l₁ l₂ : List α} (h : l₁ <+: l₂) :
    l₂.take l₁.length = l₁ := by
  obtain ⟨t, rfl⟩ := h
  simp

/-- Adjacent chunks overlap: under the same side conditions as
`chunkAux_length_le`, the first `keep` elements of each chunk equal the last
`keep` elements of the chunk before it. -/
theorem chunkAux_chain (flushAt keep : Nat) (hk : 0 < keep) (hkf : keep < flushAt) :
    ∀ (ts cur : List α), cur.length < flushAt →
      List.Chain' (fun a b => b.take keep = a.drop (a.length - keep))
        (chunkAux flushAt keep ts cur) := by
  intro ts
  induction ts with
  | nil =>
    intro cur _
    simp only [chunkAux]
    split <;> simp
  | cons t ts ih =>
    intro cur hcur
    simp only [chunkAux]
    split
    · rename_i hflush
      have hlen : (cur ++ [t]).length = flushAt := by
        simp only [List.length_append, List.length_singleton] at hflush ⊢
        omega
      refine List.chain'_cons'.mpr ⟨?_, ?_⟩
      · intro b hb
        have hpre := chunkAux_head_extends flushAt keep ts (pyTail (cur ++ [t]) keep) b hb
        have hkeep : (pyTail (cur ++ [t]) keep).length = keep :=
          pyTail_length _ keep (by omega) (by omega)
        have htake := take_of_isPrefix hpre
        rw [hkeep] at htake
        rw [htake]
        have hne : keep ≠ 0 := by omega
        simp [pyTail, hne]
      · refine ih (pyTail (cur ++ [t]) keep) ?_
        rw [pyTail_length _ keep (by omega) (by omega)]
        exact hkf
    · rename_i hflush
      refine ih (cur ++ [t]) ?_
      simp only [List.length_append, List.length_singleton] at hflush ⊢
      omega

/-- The loop never returns the empty chunk list when there is input left or a
non-empty buffer. -/
theorem chunkAux_ne_nil (flushAt keep : Nat) :
    ∀ (ts cur : List α), (ts ≠ [] ∨ cur ≠ []) → chunkAux flushAt keep ts cur ≠ [] := by
  intro ts
  induction ts with
  | nil =>
    intro cur h
    rcases h with h | h
    · exact absurd rfl h
    · simp [chunkAux, h]
  | cons t ts ih =>
    intro cur _
    simp only [chunkAux]
    split
    · simp
    · exact ih (cur ++ [t]) (Or.inr (by simp))

/-- For a non-empty token list the loop returns at least one chunk (the
starting buffer is empty, as at lines 47-48). -/
theorem chunkAux_nil_iff (flushAt keep : Nat) (ts : List α) :
    chunkAux flushAt keep ts [] = [] ↔ ts = [] := by
  constructor
  · intro h
    by_contra hts
    exact chunkAux_ne_nil flushAt keep ts [] (Or.inl hts) h
  · rintro rfl
    simp [chunkAux]

/-- On non-empty text, the tokenizer branch of `chunk_text` is the token loop
followed by `decode` on each chunk; the token count of an emitted chunk is the
length of the token list it decodes. -/
theorem chunk_text_tokenized_eq (encode : String → List Nat) (decode : List Nat → String)
    (text : String) (m o : Nat) (h : text ≠ "") :
    chunk_text_tokenized encode decode text m o =
      (chunkAux m o (encode text) []).map decode := by
  simp [chunk_text_tokenized, h]

/-- Claim C4, counterexample: with `max_tokens = 2` and `overlap_tokens = 0`
(a configuration satisfying the claim's hypothesis `overlap_tokens <
max_tokens`), the tokenizer-branch loop emits a chunk of 3 tokens — more than
`max_tokens`.  Cause: Python's `current_chunk_tokens[-overlap_tokens:]` with
`overlap_tokens = 0` is the *whole* buffer, so every chunk after the first
grows past the bound and the claimed overlap shape fails as well. -/
theorem chunk_text_zero_overlap_counterexample :
    (0 : Nat) < 2 ∧ ∃ c ∈ chunkAux 2 0 [1, 2, 3] ([] : List Nat), 2 < c.length := by
  decide

/-- Claim C4, amended: provided `0 < overlap_tokens < max_tokens`, every chunk
emitted by the tokenizer branch holds at most `max_tokens` tokens and the
first `overlap_tokens` tokens of each chunk equal the last `overlap_tokens`
tokens of the chunk before it; in the degraded (no-tokenizer) branch, with the
approximated word overlap `⌊overlap_tokens / 5⌋` positive, every chunk holds
at most `max_tokens + 1` words (the fallback flushes only when the buffer
*exceeds* `max_tokens`) and consecutive chunks overlap by `⌊overlap_tokens /
5⌋` words. -/
theorem chunk_text_bound_and_overlap (m o : Nat) (ts : List Nat)
    (m' o' : Nat) (ws : List String)
    (h1 : 0 < o) (h2 : o < m) (h3 : 0 < o' / 5) (h4 : o' < m') :
    ((∀ c ∈ chunkAux m o ts ([] : List Nat), c.length ≤ m) ∧
      List.Chain' (fun a b => b.take o = a.drop (a.length - o))
        (chunkAux m o ts [])) ∧
    ((∀ c ∈ chunkAux (m' + 1) (o' / 5) ws ([] : List String), c.length ≤ m' + 1) ∧
      List.Chain' (fun a b => b.take (o' / 5) = a.drop (a.length - (o' / 5)))
        (chunkAux (m' + 1) (o' / 5) ws [])) := by
  have h5 : o' / 5 < m' + 1 := lt_of_le_of_lt (Nat.div_le_self o' 5) (by omega)
  refine ⟨⟨?_, ?_⟩, ?_, ?_⟩
  · exact chunkAux_length_le m o h1 h2 ts [] (by simp; omega)
  · exact chunkAux_chain m o h1 h2 ts [] (by simp; omega)
  · exact chunkAux_length_le (m' + 1) (o' / 5) h3 h5 ws [] (by simp)
  · exact chunkAux_chain (m' + 1) (o' / 5) h3 h5 ws [] (by simp)

/-- Witness for `chunk_text_bound_and_overlap` at `max_tokens = 3`,
`overlap_tokens = 1` (tokenizer branch) and `max_tokens = 6`,
`overlap_tokens = 5` (fallback branch). -/
theorem chunk_text_bound_and_overlap_witness :
    ((∀ c ∈ chunkAux 3 1 [10, 20, 30, 40, 50] ([] : List Nat), c.length ≤ 3) ∧
      List.Chain' (fun a b => b.take 1 = a.drop (a.length - 1))
        (chunkAux 3 1 [10, 20, 30, 40, 50] [])) ∧
    ((∀ c ∈ chunkAux (6 + 1) (5 / 5) ["a", "b"] ([] : List String), c.length ≤ 6 + 1) ∧
      List.Chain' (fun a b => b.take (5 / 5) = a.drop (a.length - (5 / 5)))
        (chunkAux (6 + 1) (5 / 5) ["a", "b"] [])) :=
  chunk_text_bound_and_overlap 3 1 [10, 20, 30, 40, 50] 6 5 ["a", "b"]
    (by decide) (by decide) (by decide) (by decide)

/-- Claim C5, counterexample: the degraded (no-tokenizer) branch returns the
empty chunk list on the non-empty, whitespace-only text `" "`, because
`" ".split()` is empty — so "non-empty list iff text non-empty" fails on the
code. -/
theorem chunk_text_whitespace_counterexample :
    (" " : String) ≠ "" ∧ chunk_text_fallback " " 500 50 = [] := by
  constructor
  · decide
  · rfl

/-- Claim C5, amended: `chunk_text` on empty text returns the empty sequence
(both branches); a non-empty result is returned exactly when the text is
non-empty *and* splitting it produced at least one unit — at least one token
from the tokenizer, or, in the degraded branch, at least one
whitespace-delimited word.  (For every non-empty text a real tokenizer yields
a token, so in tokenizer mode this coincides with the original claim; the
degraded branch genuinely differs on whitespace-only text.) -/
theorem chunk_text_nonempty_iff (encode : String → List Nat) (decode : List Nat → String)
    (text : String) (m o : Nat) :
    (chunk_text_tokenized encode decode "" m o = [] ∧ chunk_text_fallback "" m o = []) ∧
    (chunk_text_tokenized encode decode text m o ≠ [] ↔
      (text ≠ "" ∧ encode text ≠ [])) ∧
    (chunk_text_fallback text m o ≠ [] ↔ (text ≠ "" ∧ pySplit text ≠ [])) := by
  refine ⟨⟨rfl, rfl⟩, ?_, ?_⟩
  · by_cases h : text = ""
    · subst h
      simp [chunk_text_tokenized]
    · simp [chunk_text_tokenized, h, chunkAux_nil_iff]
  · by_cases h : text = ""
    · subst h
      simp [chunk_text_fallback]
    · simp [chunk_text_fallback, h, chunkAux_nil_iff]

/-! ## Vector retriever — `SupabaseService.get_relevant_chunks`
(supabase_service.py, lines 218-254) -/

/-- One row of the `document_chunks` table as the retriever sees it, with the
distance `embedding <=> query_embedding` already evaluated (the embedding
itself is opaque to the Python code). -/
structure ChunkRow where
  document_id : String
  chunk_text : String
  distance : Int
deriving DecidableEq

/-- Modelled from the spec: the database-side RPC `match_document_chunks`,
which is not part of the Python sources — its SQL body is given in the source
comment at supabase_service.py lines 224-240: select the rows of
`document_chunks` whose `document_id` equals `doc_id`, order them by the
distance `embedding <=> query_embedding`, and return at most `match_count` of
them (`LIMIT match_count`). -/
def match_document_chunks (store : List ChunkRow) (doc_id : String)
    (match_count : Nat) : List ChunkRow :=
  ((store.filter (fun r => r.document_id = doc_id)).mergeSort
    (fun a b => a.distance ≤ b.distance)).take match_count

/-- The possible outcomes of the RPC call at lines 242-246 as the Python sees
them: an exception (`.error`), a falsy `data` (`.ok none`), or a row list
(`.ok (some rows)` — possibly empty, which is also falsy at line 248). -/
def RpcOutcome := Except String (Option (List ChunkRow))

/-- `get_relevant_chunks` (lines 218-254): on a successful call return the
`chunk_text` of each returned row; when `data` or the row list is falsy
return `[]` (line 250); when the call raises, catch and return `[]`
(lines 251-254).  Total by construction: the `except` clause means no error
escapes this boundary. -/
def get_relevant_chunks (rpc : RpcOutcome) : List String :=
  match rpc with
  | .error _ => []
  | .ok none => []
  | .ok (some rows) => if rows.isEmpty then [] else rows.map (·.chunk_text)

/-- Claim C6: `get_relevant_chunks` never propagates a backend failure (a
raising RPC yields `[]`), yields `[]` when the RPC returns falsy data or when
the document has no stored chunks, and never returns more than `top_k`
entries when the rows come from the `LIMIT top_k` RPC. -/
theorem get_relevant_chunks_safe (e : String) (store : List ChunkRow)
    (doc_id : String) (top_k : Nat)
    (hnone : ∀ r ∈ store, r.document_id ≠ doc_id) :
    get_relevant_chunks (.error e) = [] ∧
    get_relevant_chunks (.ok none) = [] ∧
    get_relevant_chunks (.ok (some [])) = [] ∧
    get_relevant_chunks (.ok (some (match_document_chunks store doc_id top_k))) = [] ∧
    ∀ store' doc' k',
      (get_relevant_chunks
        (.ok (some (match_document_chunks store' doc' k')))).length ≤ k' := by
  have hfilter : store.filter (fun r => r.document_id = doc_id) = [] := by
    rw [List.filter_eq_nil_iff]
    intro r hr
    simpa using hnone r hr
  refine ⟨rfl, rfl, rfl, ?_, ?_⟩
  · simp [get_relevant_chunks, match_document_chunks, hfilter]
  · intro store' doc' k'
    simp only [get_relevant_chunks, match_document_chunks]
    split
    · simp
    · rw [List.length_map]
      exact (List.length_take_le _ _).trans (by simp)

/-- Witness for `get_relevant_chunks_safe`: a store holding one chunk of a
different document. -/
theorem get_relevant_chunks_safe_witness :
    get_relevant_chunks (.error "network down") = [] ∧
    get_relevant_chunks (.ok none) = [] ∧
    get_relevant_chunks (.ok (some [])) = [] ∧
    get_relevant_chunks
      (.ok (some (match_document_chunks [⟨"doc-7", "text", 0⟩] "doc-42" 5))) = [] ∧
    ∀ store' doc' k',
      (get_relevant_chunks
        (.ok (some (match_document_chunks store' doc' k')))).length ≤ k' :=
  get_relevant_chunks_safe "network down" [⟨"doc-7", "text", 0⟩] "doc-42" 5
    (by decide)

/-! ## Direct-RAG answer path — `ask_question` (main.py, lines 150-187) -/

/-- The fixed no-relevant-information response at main.py line 169. -/
def noRelevantInfoMsg : String :=
  "I couldn't find relevant information in the document to answer your question. Please try rephrasing or asking a different question."

/-- The retrieval-dependent tail of `ask_question` (main.py, lines 166-180):
given the retrieved `relevant_chunks`, either short-circuit to the fixed
response (lines 168-169) or join the chunks into a context (line 172) and
invoke the grounded answerer `generate_answer` (line 175).  The answerer is a
parameter so that its non-invocation on the empty-retrieval path is visible
in the model. -/
def ask_question (question : String) (relevant_chunks : List String)
    (generate_answer : String → String → String) : String :=
  if relevant_chunks.isEmpty then noRelevantInfoMsg
  else generate_answer question (String.intercalate "\n\n" relevant_chunks)

/-- Claim C7: when retrieval yields no context chunks, `ask_question` returns
exactly the fixed string of main.py line 169, and the grounded answerer is
not invoked — the result does not depend on the answerer at all (any two
answerers give the same result). -/
theorem ask_question_no_context (question : String)
    (g g' : String → String → String) :
    ask_question question [] g =
      "I couldn't find relevant information in the document to answer your question. Please try rephrasing or asking a different question." ∧
    ask_question question [] g = ask_question question [] g' :=
  ⟨rfl, rfl⟩

/-! ## Entity offsets — `upload_pdf` step 4 (main.py, lines 96-112) -/

/-- An entity as returned by the LLM extraction: `{"text": …, "label": …}`. -/
structure RawEntity where
  text : String
  label : String
deriving DecidableEq

/-- An entity as stored (models/requests.py `Entity`): text span, label, and
best-effort character offsets (`start`/`end`, absent when the text was not
found).  `end` is a Lean keyword, so the field is `stop` here. -/
structure Entity where
  text : String
  label : String
  start : Option Nat
  stop : Option Nat
deriving DecidableEq

/-- Python's `hay.find(needle)` over character lists, as an `Option`: the
least index at which `needle` occurs as a contiguous sublist of `hay`, or
`none` (Python's `-1`) when there is no occurrence. -/
def pyFind (needle : List Char) : List Char → Option Nat
  | [] => if needle.isEmpty then some 0 else none
  | c :: t =>
    if needle.isPrefixOf (c :: t) then some 0
    else (pyFind needle t).map (· + 1)

/-- One iteration of the entity post-processing loop (main.py, lines 97-112):
skip the entity when `text` or `label` is falsy (line 100); otherwise locate
the first occurrence of the entity text in the cleaned text (line 103) and
attach offsets `start` and `start + len(text)` when found (lines 104-110),
no offsets otherwise (line 112). -/
def process_entity (cleaned_text : String) (ent : RawEntity) : Option Entity :=
  if ent.text = "" ∨ ent.label = "" then none
  else
    match pyFind ent.text.data cleaned_text.data with
    | some i => some ⟨ent.text, ent.label, some i, some (i + ent.text.length)⟩
    | none => some ⟨ent.text, ent.label, none, none⟩

/-- The whole post-processing loop over the raw entity list. -/
def process_entities (cleaned_text : String) (raw : List RawEntity) : List Entity :=
  raw.filterMap (process_entity cleaned_text)

/-- `pyFind` is sound: a returned index is an occurrence. -/
theorem pyFind_some_occurs (needle : List Char) :
    ∀ (hay : List Char) (i : Nat), pyFind needle hay = some i →
      needle <+: hay.drop i := by
  intro hay
  induction hay with
  | nil =>
    intro i h
    simp only [pyFind] at h
    split at h
    · rename_i hempty
      simp only [Option.some.injEq] at h
      subst h
      simp [List.isEmpty_iff.mp hempty]
    · exact absurd h (by simp)
  | cons c t ih =>
    intro i h
    simp only [pyFind] at h
    split at h
    · rename_i hpre
      simp only [Option.some.injEq] at h
      subst h
      simpa using List.isPrefixOf_iff_prefix.mp hpre
    · rcases Option.map_eq_some'.mp h with ⟨j, hj, rfl⟩
      simpa using ih j hj

/-- `pyFind` returns the least occurrence index. -/
theorem pyFind_some_least (needle : List Char) :
    ∀ (hay : List Char) (i : Nat), pyFind needle hay = some i →
      ∀ j < i, ¬ needle <+: hay.drop j := by
  intro hay
  induction hay with
  | nil =>
    intro i h
    simp only [pyFind] at h
    split at h
    · simp only [Option.some.injEq] at h
      subst h
      omega
    · exact absurd h (by simp)
  | cons c t ih =>
    intro i h
    simp only [pyFind] at h
    split at h
    · simp only [Option.some.injEq] at h
      subst h
      omega
    · rename_i hpre
      rcases Option.map_eq_some'.mp h with ⟨k, hk, rfl⟩
      intro j hj
      match j with
      | 0 =>
        simpa using fun hcontra => hpre (List.isPrefixOf_iff_prefix.mpr (by simpa using hcontra))
      | j + 1 =>
        simpa using ih k hk j (by omega)

/-- When `pyFind` fails there is no occurrence anywhere. -/
theorem pyFind_none (needle : List Char) :
    ∀ (hay : List Char), pyFind needle hay = none →
      ∀ j, ¬ needle <+: hay.drop j := by
  intro hay
  induction hay with
  | nil =>
    intro h j
    simp only [pyFind] at h
    split at h
    · exact absurd h (by simp)
    · rename_i hne
      simp only [List.drop_nil]
      intro hcontra
      obtain ⟨u, hu⟩ := hcontra
      have : needle = [] := by
        have := congrArg List.length hu
        simp at this
        exact this.1
      exact hne (by simp [List.isEmpty_iff, this])
  | cons c t ih =>
    intro h j
    simp only [pyFind] at h
    split at h
    · exact absurd h (by simp)
    · rename_i hpre
      have ht : pyFind needle t = none := by
        cases hfind : pyFind needle t with
        | none => rfl
        | some k => rw [hfind] at h; simp at h
      match j with
      | 0 =>
        intro hcontra
        exact hpre (List.isPrefixOf_iff_prefix.mpr (by simpa using hcontra))
      | j + 1 =>
        simpa using ih ht j

/-- Claim C10: for an extracted entity with non-empty text and label, if the
entity text occurs in the cleaned text then the stored offsets are exactly
those of the *first* occurrence, with `end = start + len(text)` (even when
the text occurs again later); if it does not occur, the entity is stored with
both offsets absent. -/
theorem entity_offsets_first_occurrence (cleaned_text : String) (ent : RawEntity)
    (htext : ent.text ≠ "") (hlabel : ent.label ≠ "") :
    ((∃ j, ent.text.data <+: cleaned_text.data.drop j) →
      ∃ i, process_entity cleaned_text ent =
          some ⟨ent.text, ent.label, some i, some (i + ent.text.length)⟩ ∧
        ent.text.data <+: cleaned_text.data.drop i ∧
        ∀ j < i, ¬ ent.text.data <+: cleaned_text.data.drop j) ∧
    ((¬ ∃ j, ent.text.data <+: cleaned_text.data.drop j) →
      process_entity cleaned_text ent = some ⟨ent.text, ent.label, none, none⟩) := by
  constructor
  · intro ⟨j, hj⟩
    cases hfind : pyFind ent.text.data cleaned_text.data with
    | none => exact absurd hj (pyFind_none _ _ hfind j)
    | some i =>
      refine ⟨i, ?_, pyFind_some_occurs _ _ _ hfind, pyFind_some_least _ _ _ hfind⟩
      simp [process_entity, htext, hlabel, hfind]
  · intro hno
    cases hfind : pyFind ent.text.data cleaned_text.data with
    | none => simp [process_entity, htext, hlabel, hfind]
    | some i => exact absurd ⟨i, pyFind_some_occurs _ _ _ hfind⟩ hno

/-- Witness for `entity_offsets_first_occurrence`: the spec's scenario —
entity "Paris" in the cleaned text "Paris is nice. I love Paris." gets the
offsets 0-5 of the first occurrence, not the second. -/
theorem entity_offsets_first_occurrence_witness :
    ((∃ j, ("Paris" : String).data <+: ("Paris is nice. I love Paris." : String).data.drop j) →
      ∃ i, process_entity "Paris is nice. I love Paris." ⟨"Paris", "LOC"⟩ =
          some ⟨"Paris", "LOC", some i, some (i + ("Paris" : String).length)⟩ ∧
        ("Paris" : String).data <+: ("Paris is nice. I love Paris." : String).data.drop i ∧
        ∀ j < i, ¬ ("Paris" : String).data <+: ("Paris is nice. I love Paris." : String).data.drop j) ∧
    ((¬ ∃ j, ("Paris" : String).data <+: ("Paris is nice. I love Paris." : String).data.drop j) →
      process_entity "Paris is nice. I love Paris." ⟨"Paris", "LOC"⟩ =
        some ⟨"Paris", "LOC", none, none⟩) :=
  entity_offsets_first_occurrence "Paris is nice. I love Paris." ⟨"Paris", "LOC"⟩
    (by decide) (by decide)

/-! ## Tool registry — the three tool wrappers
(gemini_agent_service.py, lines 83-113)

Each wrapper's body is one `try` block whose `except` clause converts any
internal failure into a descriptive `"Error … : <cause>"` string.  The
external calls inside the `try` (database query, embedding call) are modelled
as `Except String` outcomes: `.error e` is the raised exception `e`. -/

/-- `_get_document_summary_tool` (lines 83-91).  `db` is the outcome of the
`documents` table query: an exception, or the row's `summary` field (`none`
when the row or field is missing or null; the empty string is falsy at
line 87 and also yields the not-found sentinel). -/
def get_document_summary_tool (document_id : String)
    (db : Except String (Option String)) : String :=
  match db with
  | .ok (some summary) =>
    if summary = "" then "No summary found for document ID: " ++ document_id
    else summary
  | .ok none => "No summary found for document ID: " ++ document_id
  | .error e => "Error retrieving summary for document ID " ++ document_id ++ ": " ++ e

/-- `_get_document_entities_tool` (lines 93-102).  `dumps` is `json.dumps`;
an empty entity list is falsy at line 97 and yields the not-found sentinel. -/
def get_document_entities_tool (document_id : String)
    (dumps : List Entity → String) (db : Except String (Option (List Entity))) : String :=
  match db with
  | .ok (some entities) =>
    if entities.isEmpty then "No entities found for document ID: " ++ document_id
    else dumps entities
  | .ok none => "No entities found for document ID: " ++ document_id
  | .error e => "Error retrieving entities for document ID " ++ document_id ++ ": " ++ e

/-- `_semantic_search_document_tool` (lines 104-113).  `embed` is the outcome
of `get_embedding` (which propagates its failures, gemini_service.py
line 103); the retrieval step is `get_relevant_chunks` with `top_k = 5`,
whose outcome is fed in as `rpc`. -/
def semantic_search_document_tool (document_id query : String)
    (embed : Except String (List Int)) (rpc : RpcOutcome) : String :=
  match embed with
  | .error e => "Error performing semantic search for document ID " ++ document_id ++ ": " ++ e
  | .ok _ =>
    let relevant_chunks := get_relevant_chunks rpc
    if relevant_chunks.isEmpty then
      "No relevant sections found for query '" ++ query ++ "' in document ID: " ++ document_id
    else
      "Relevant sections:\n" ++ String.intercalate "\n---\n" relevant_chunks

/-- Claim C9: each of the three registered tools is total (it never raises
past its boundary — every case of its external outcomes produces a plain
string result), and every internal failure is converted into the descriptive
`"Error … : <cause>"` string of its `except` clause. -/
theorem tools_error_string :
    (∀ (document_id e : String),
      get_document_summary_tool document_id (.error e) =
        "Error retrieving summary for document ID " ++ document_id ++ ": " ++ e) ∧
    (∀ (document_id e : String) (dumps : List Entity → String),
      get_document_entities_tool document_id dumps (.error e) =
        "Error retrieving entities for document ID " ++ document_id ++ ": " ++ e) ∧
    (∀ (document_id query e : String) (rpc : RpcOutcome),
      semantic_search_document_tool document_id query (.error e) rpc =
        "Error performing semantic search for document ID " ++ document_id ++ ": " ++ e) :=
  ⟨fun _ _ => rfl, fun _ _ _ => rfl, fun _ _ _ _ => rfl⟩

/-! ## Agent loop — `GeminiAgentService.invoke_agent`
(gemini_agent_service.py, lines 116-204)

The model is abstracted as a response stream `Nat → ModelResponse`: the
response the model gives to the k-th message sent to it (the initial user
query is message 0).  Quantifying theorems over every stream covers every
possible model behaviour.  `chat.history` is modelled as the list of turns it
holds: each `send_message_async` appends the sent turn and the model's reply,
so the history grows by exactly 2 per send, starting at 2 after the initial
exchange (lines 120-123). -/

/-- What `invoke_agent` inspects in a model response (lines 129-135): the
first part carries a function call, the first part carries text, or the
response has no candidates / content parts at all. -/
inductive ModelResponse
  | func (name : String) (args : List (String × String))
  | text (s : String)
  | empty
deriving DecidableEq

/-- One entry of `chat.history`: a plain message sent by the loop (the user
query, or the unknown-tool error text of line 178), a
`genai.protos.FunctionResponse` part (lines 152-161 / 165-174), or a model
reply. -/
inductive Turn
  | user (content : String)
  | functionResponse (name content : String)
  | model (resp : ModelResponse)
deriving DecidableEq

/-- One record of `tool_calls_history` (line 139). -/
structure ToolCallRec where
  tool : String
  args : List (String × String)
deriving DecidableEq

/-- The loop's mutable state: `chat.history`, `tool_calls_history`, and the
index of the model response currently being inspected. -/
structure AgentState where
  history : List Turn
  tool_calls_history : List ToolCallRec
  step : Nat
deriving DecidableEq

/-- The dictionary `invoke_agent` returns (lines 183-187 / 191-195 /
200-204). -/
structure AgentResult where
  answer : String
  tool_calls : List ToolCallRec
  final_prompt : List Turn
deriving DecidableEq

/-- The keys of `self.tools` (lines 28-34): the fixed, closed tool registry. -/
def toolRegistry : List String :=
  ["get_document_summary", "get_document_entities", "semantic_search_document"]

/-- The `required` parameter lists of the tool schemas registered with the
model (lines 42-77). -/
def toolSchemaRequired (name : String) : List String :=
  if name = "get_document_summary" then ["document_id"]
  else if name = "get_document_entities" then ["document_id"]
  else if name = "semantic_search_document" then ["document_id", "query"]
  else []

/-- Lines 144-145: `if 'document_id' in tool_args: tool_args['document_id'] =
document_id`.  The caller-supplied id replaces the model-supplied one *only
when the model's argument mapping already contains the key*; a mapping
without the key is left untouched. -/
def injectDocId (document_id : String) (args : List (String × String)) :
    List (String × String) :=
  if (args.lookup "document_id").isSome then
    args.map (fun kv => if kv.1 = "document_id" then (kv.1, document_id) else kv)
  else args

/-- The fixed loop-bound answer (line 201). -/
def tooLongMsg : String :=
  "I'm having trouble processing this request. The conversation became too long."

/-- The fixed degenerate-response answer (line 192). -/
def cantProcessMsg : String := "I couldn't process that request fully. Please try again."

/-- The synthesized unknown-tool error (line 176). -/
def unknownToolMsg (name : String) : String :=
  "Agent tried to call unknown tool: " ++ name

/-- One iteration of the `while True` loop (lines 128-204).  `execTool`
abstracts the string that the known-tool branch sends back as the function
response: the tool's output (line 148), or — when the call raises — the
`"Error executing tool …"` text of the `except` clause (lines 162-174;
either way exactly one message is sent back).  The known-tool branch executes
the tool on `injectDocId document_id args` (lines 144-148); since the
recorded dict at line 139 is the same object that line 145 mutates, the
record holds the injected mapping too.  The unknown-tool branch (lines
175-178) records the call, sends the synthesized error as a plain message,
and loops.  A text part returns the final answer (lines 179-187); a response
with no parts returns the fixed degenerate answer (lines 188-195).  After
either tool branch, `len(chat.history) > 20` forces the fixed too-long
answer (lines 196-204). -/
def agentStep (stream : Nat → ModelResponse) (document_id : String)
    (execTool : String → List (String × String) → String)
    (s : AgentState) : Sum AgentResult AgentState :=
  match stream s.step with
  | .func name args =>
    if name ∈ toolRegistry then
      let args' := injectDocId document_id args
      let calls := s.tool_calls_history ++ [⟨name, args'⟩]
      let history' := s.history ++
        [.functionResponse name (execTool name args'), .model (stream (s.step + 1))]
      if 20 < history'.length then .inl ⟨tooLongMsg, calls, history'⟩
      else .inr ⟨history', calls, s.step + 1⟩
    else
      let calls := s.tool_calls_history ++ [⟨name, args⟩]
      let history' := s.history ++
        [.user (unknownToolMsg name), .model (stream (s.step + 1))]
      if 20 < history'.length then .inl ⟨tooLongMsg, calls, history'⟩
      else .inr ⟨history', calls, s.step + 1⟩
  | .text t => .inl ⟨t, s.tool_calls_history, s.history⟩
  | .empty => .inl ⟨cantProcessMsg, s.tool_calls_history, s.history⟩

/-- Whenever an iteration continues the loop, the history has grown by
exactly one exchange (2 turns), is still within the 20-turn bound (otherwise
the iteration would have returned the too-long answer), and the loop has
moved on to the next model response. -/
theorem agentStep_inr (stream : Nat → ModelResponse) (document_id : String)
    (execTool : String → List (String × String) → String)
    (s s' : AgentState) (h : agentStep stream document_id execTool s = .inr s') :
    s'.history.length = s.history.length + 2 ∧ s'.history.length ≤ 20 ∧
      s'.step = s.step + 1 := by
  cases hresp : stream s.step with
  | func name args =>
    simp only [agentStep, hresp] at h
    split at h
    · split at h
      · exact absurd h (by simp)
      · rename_i hbound
        cases h
        refine ⟨by simp, ?_, rfl⟩
        simp only [List.length_append, List.length_cons, List.length_nil] at hbound ⊢
        omega
    · split at h
      · exact absurd h (by simp)
      · rename_i hbound
        cases h
        refine ⟨by simp, ?_, rfl⟩
        simp only [List.length_append, List.length_cons, List.length_nil] at hbound ⊢
        omega
  | text t =>
    simp only [agentStep, hresp] at h
    exact absurd h (by simp)
  | empty =>
    simp only [agentStep, hresp] at h
    exact absurd h (by simp)

/-- The `while True` loop itself.  It is a total function: termination is
forced by the history bound — every continuing iteration grows the history
by 2 and only continues while the history stays at 20 turns or fewer. -/
def agentLoop (stream : Nat → ModelResponse) (document_id : String)
    (execTool : String → List (String × String) → String)
    (s : AgentState) : AgentResult :=
  match h : agentStep stream document_id execTool s with
  | .inl r => r
  | .inr s' => agentLoop stream document_id execTool s'
termination_by 21 - s.history.length
decreasing_by
  have := agentStep_inr stream document_id execTool s s' h
  omega

/-- `invoke_agent` (lines 116-204): the initial exchange seeds the history
with the user query and the model's first response (lines 120-123), then the
loop runs with an empty `tool_calls_history` (line 125). -/
def invoke_agent (stream : Nat → ModelResponse) (document_id user_query : String)
    (execTool : String → List (String × String) → String) : AgentResult :=
  agentLoop stream document_id execTool
    ⟨[.user user_query, .model (stream 0)], [], 0⟩

/-- An iteration that leaves the loop determines the loop's result. -/
theorem agentLoop_inl (stream : Nat → ModelResponse) (document_id : String)
    (execTool : String → List (String × String) → String)
    (s : AgentState) (r : AgentResult)
    (h : agentStep stream document_id execTool s = .inl r) :
    agentLoop stream document_id execTool s = r := by
  rw [agentLoop, h]

/-- An iteration that continues the loop passes control to the next state. -/
theorem agentLoop_inr (stream : Nat → ModelResponse) (document_id : String)
    (execTool : String → List (String × String) → String)
    (s s' : AgentState)
    (h : agentStep stream document_id execTool s = .inr s') :
    agentLoop stream document_id execTool s =
      agentLoop stream document_id execTool s' := by
  rw [agentLoop, h]

/-- An iteration that leaves the loop from a state within the 20-turn bound
produces a result whose history holds at most 22 turns, and whose answer is
the fixed too-long message whenever that history exceeds 20 turns. -/
theorem agentStep_inl_bound (stream : Nat → ModelResponse) (document_id : String)
    (execTool : String → List (String × String) → String)
    (s : AgentState) (r : AgentResult)
    (hs : s.history.length ≤ 20)
    (h : agentStep stream document_id execTool s = .inl r) :
    r.final_prompt.length ≤ 22 ∧
      (20 < r.final_prompt.length → r.answer = tooLongMsg) := by
  cases hresp : stream s.step with
  | func name args =>
    simp only [agentStep, hresp] at h
    split at h
    · split at h
      · cases h
        refine ⟨?_, fun _ => rfl⟩
        show (s.history ++ [_, _]).length ≤ 22
        simp only [List.length_append, List.length_cons, List.length_nil]
        omega
      · exact absurd h (by simp)
    · split at h
      · cases h
        refine ⟨?_, fun _ => rfl⟩
        show (s.history ++ [_, _]).length ≤ 22
        simp only [List.length_append, List.length_cons, List.length_nil]
        omega
      · exact absurd h (by simp)
  | text t =>
    simp only [agentStep, hresp] at h
    cases h
    refine ⟨?_, fun hgt => ?_⟩
    · show s.history.length ≤ 22
      omega
    · exact absurd (show 20 < s.history.length from hgt) (by omega)
  | empty =>
    simp only [agentStep, hresp] at h
    cases h
    refine ⟨?_, fun hgt => ?_⟩
    · show s.history.length ≤ 22
      omega
    · exact absurd (show 20 < s.history.length from hgt) (by omega)

/-- The loop invariant behind the safety bound, by induction on the room left
under the bound. -/
theorem agentLoop_bound (stream : Nat → ModelResponse) (document_id : String)
    (execTool : String → List (String × String) → String) :
    ∀ (n : Nat) (s : AgentState), 21 - s.history.length ≤ n →
      s.history.length ≤ 20 →
      (agentLoop stream document_id execTool s).final_prompt.length ≤ 22 ∧
        (20 < (agentLoop stream document_id execTool s).final_prompt.length →
          (agentLoop stream document_id execTool s).answer = tooLongMsg) := by
  intro n
  induction n with
  | zero =>
    intro s hroom hs
    omega
  | succ n ih =>
    intro s _ hs
    cases hstep : agentStep stream document_id execTool s with
    | inl r =>
      rw [agentLoop_inl stream document_id execTool s r hstep]
      exact agentStep_inl_bound stream document_id execTool s r hs hstep
    | inr s' =>
      rw [agentLoop_inr stream document_id execTool s s' hstep]
      obtain ⟨hgrow, hle, _⟩ := agentStep_inr stream document_id execTool s s' hstep
      exact ih s' (by omega) hle

/-- Claim C2: for every model behaviour `stream` and every tool behaviour
`execTool`, the agent loop terminates (it is a total function, with
termination measure `21 - history length`); while it runs, every continuing
iteration keeps the accumulated history at 20 turns or fewer; and the final
history holds at most 22 turns — once it exceeds the fixed threshold 20
(which can only happen right after a tool exchange, without a final answer),
the loop forcibly returns the fixed "conversation became too long" answer of
line 201. -/
theorem invoke_agent_bounded (stream : Nat → ModelResponse)
    (document_id user_query : String)
    (execTool : String → List (String × String) → String) :
    ((invoke_agent stream document_id user_query execTool).final_prompt.length ≤ 22 ∧
      (20 < (invoke_agent stream document_id user_query execTool).final_prompt.length →
        (invoke_agent stream document_id user_query execTool).answer =
          "I'm having trouble processing this request. The conversation became too long.")) ∧
    ∀ (s s' : AgentState), agentStep stream document_id execTool s = .inr s' →
      s'.history.length ≤ 20 := by
  constructor
  · exact agentLoop_bound stream document_id execTool 21 _ (by simp) (by simp)
  · intro s s' h
    exact (agentStep_inr stream document_id execTool s s' h).2.1

/-- Witness for `invoke_agent_bounded`: a model that calls the same known
tool forever — the loop still returns, with the too-long answer. -/
theorem invoke_agent_bounded_witness :
    ((invoke_agent
        (fun _ => .func "get_document_summary" [("document_id", "x")])
        "doc-42" "summarize" (fun _ _ => "a summary")).final_prompt.length ≤ 22 ∧
      (20 < (invoke_agent
          (fun _ => .func "get_document_summary" [("document_id", "x")])
          "doc-42" "summarize" (fun _ _ => "a summary")).final_prompt.length →
        (invoke_agent
            (fun _ => .func "get_document_summary" [("document_id", "x")])
            "doc-42" "summarize" (fun _ _ => "a summary")).answer =
          "I'm having trouble processing this request. The conversation became too long.")) ∧
    ∀ (s s' : AgentState),
      agentStep (fun _ => .func "get_document_summary" [("document_id", "x")])
        "doc-42" (fun _ _ => "a summary") s = .inr s' →
      s'.history.length ≤ 20 :=
  invoke_agent_bounded (fun _ => .func "get_document_summary" [("document_id", "x")])
    "doc-42" "summarize" (fun _ _ => "a summary")

/-- Claim C3: a model response naming a tool outside the registry does not
raise and does not end the loop (provided the safety bound of claim C2 has
not been hit): the iteration appends the attempted call to
`tool_calls_history`, sends the synthesized error string back to the model
as a plain message, and continues, awaiting the next model response. -/
theorem agentStep_unknown_tool (stream : Nat → ModelResponse)
    (document_id : String)
    (execTool : String → List (String × String) → String)
    (s : AgentState) (name : String) (args : List (String × String))
    (hresp : stream s.step = .func name args)
    (hreg : name ∉ toolRegistry)
    (hbound : s.history.length + 2 ≤ 20) :
    agentStep stream document_id execTool s =
      .inr ⟨s.history ++
          [.user ("Agent tried to call unknown tool: " ++ name),
            .model (stream (s.step + 1))],
        s.tool_calls_history ++ [⟨name, args⟩], s.step + 1⟩ := by
  simp only [agentStep, hresp, if_neg hreg, unknownToolMsg]
  rw [if_neg]
  simp only [List.length_append, List.length_cons, List.length_nil]
  omega

/-- Witness for `agentStep_unknown_tool`: the model asks for the tool
"fly_to_moon", which is not in the registry. -/
theorem agentStep_unknown_tool_witness :
    agentStep (fun _ => .func "fly_to_moon" []) "doc-42" (fun _ _ => "out")
      ⟨[.user "q", .model (ModelResponse.func "fly_to_moon" [])], [], 0⟩ =
      .inr ⟨[.user "q", .model (ModelResponse.func "fly_to_moon" [])] ++
          [.user ("Agent tried to call unknown tool: " ++ "fly_to_moon"),
            .model ((fun _ => ModelResponse.func "fly_to_moon" []) (0 + 1))],
        [] ++ [⟨"fly_to_moon", []⟩], 0 + 1⟩ :=
  agentStep_unknown_tool (fun _ => .func "fly_to_moon" []) "doc-42"
    (fun _ _ => "out")
    ⟨[.user "q", .model (ModelResponse.func "fly_to_moon" [])], [], 0⟩
    "fly_to_moon" [] rfl (by decide) (by decide)

/-- Claim C8: a model response with no text and no tool call (no candidates
or no content parts, lines 188-195) makes the loop return at once with the
fixed "couldn't process that request fully" answer, the tool-call record and
history accumulated so far. -/
theorem agent_empty_response_done (stream : Nat → ModelResponse)
    (document_id : String)
    (execTool : String → List (String × String) → String)
    (s : AgentState) (hresp : stream s.step = .empty) :
    agentLoop stream document_id execTool s =
      ⟨"I couldn't process that request fully. Please try again.",
        s.tool_calls_history, s.history⟩ := by
  apply agentLoop_inl
  simp only [agentStep, hresp]
  rfl

/-- Witness for `agent_empty_response_done`: a model that returns an empty
response immediately. -/
theorem agent_empty_response_done_witness :
    agentLoop (fun _ => .empty) "doc-42" (fun _ _ => "out")
      ⟨[.user "q", .model ModelResponse.empty], [], 0⟩ =
      ⟨"I couldn't process that request fully. Please try again.",
        [], [.user "q", .model ModelResponse.empty]⟩ :=
  agent_empty_response_done (fun _ => .empty) "doc-42" (fun _ _ => "out")
    ⟨[.user "q", .model ModelResponse.empty], [], 0⟩ rfl

/-- Claim C1, counterexample: the schema of `get_document_summary` requires a
`document_id`, yet for a model-supplied argument mapping that *omits* the
key, the loop's injection step (lines 144-145) leaves the mapping untouched
— the tool is executed without the caller's scoped `"doc-42"` (the call then
fails inside the `try` and the error is fed back), contradicting "the tool
always executes with the caller's document_id regardless of what document_id
(if any) the model supplied". -/
theorem injectDocId_schema_counterexample :
    "document_id" ∈ toolSchemaRequired "get_document_summary" ∧
      (injectDocId "doc-42" []).lookup "document_id" ≠ some "doc-42" := by
  decide

/-- The injection rewrites an existing `document_id` entry. -/
theorem lookup_inject (document_id : String) :
    ∀ (args : List (String × String)), (args.lookup "document_id").isSome →
      (args.map (fun kv =>
        if kv.1 = "document_id" then (kv.1, document_id) else kv)).lookup
          "document_id" = some document_id := by
  intro args
  induction args with
  | nil => simp
  | cons kv rest ih =>
    intro hsome
    obtain ⟨k, v⟩ := kv
    by_cases hk : k = "document_id"
    · subst hk
      simp [List.lookup]
    · have hbeq : ("document_id" == k) = false := beq_eq_false_iff_ne.mpr (Ne.symm hk)
      rw [List.map_cons]
      rw [show (if (k, v).1 = "document_id" then ((k, v).1, document_id) else (k, v)) =
        (k, v) from if_neg hk]
      simp only [List.lookup, hbeq] at hsome ⊢
      exact ih hsome

/-- Claim C1, amended: the loop overrides the caller-supplied `document_id`
into the argument mapping exactly when the model-supplied mapping already
contains a `document_id` key — a model-supplied value is then always replaced
by the caller's id before the tool executes (the spec's scenario); a mapping
without the key is passed through unchanged, so a model that omits the key
does not receive the caller's document scope. -/
theorem injectDocId_override (document_id v : String)
    (args : List (String × String)) :
    (args.lookup "document_id" = some v →
      (injectDocId document_id args).lookup "document_id" = some document_id) ∧
    (args.lookup "document_id" = none → injectDocId document_id args = args) := by
  constructor
  · intro hv
    unfold injectDocId
    rw [if_pos (by simp [hv])]
    exact lookup_inject document_id args (by simp [hv])
  · intro hnone
    unfold injectDocId
    rw [if_neg (by simp [hnone])]

/-- Witness for `injectDocId_override`: the spec's scenario — the model
supplies `document_id="ignored"` while the invocation is scoped to
`"doc-42"`; the executed mapping carries `"doc-42"`. -/
theorem injectDocId_override_witness :
    (injectDocId "doc-42" [("document_id", "ignored")]).lookup "document_id" =
      some "doc-42" :=
  (injectDocId_override "doc-42" "ignored" [("document_id", "ignored")]).1 (by decide)

end DocuMate
